import Mathlib

/-!
Verification development for the self-querying retriever backend.

The definitions below are shallow embeddings of the Python functions in
`backend/retriever/` (services/retrievers.py, agents/nodes.py,
agents/graph.py, agents/state.py, services/augmentation.py).  Machine
floats are modelled as rationals, Python dicts as association lists with
first-key-wins lookup and insertion-order iteration, and calls to
external language models or vector stores as explicit oracle arguments
of type `Except String _` (an `Except.error` models a raised exception
caught by the surrounding `try`).
-/

/-- Lookup in a Python dict modelled as an association list: the value of
the first pair whose key matches, as `dict.get` returns. -/
def dictGet {α : Type} : List (String × α) → String → Option α
  | [], _ => none
  | (k0, v0) :: rest, k => if k0 = k then some v0 else dictGet rest k

/-- A LangChain `Document`: page content plus metadata. -/
structure Doc where
  page_content : String
  metadata : List (String × String) := []
deriving DecidableEq

/- ----------------------------------------------------------------------
AgentConfig (agents/state.py) with its seven fields and defaults.
---------------------------------------------------------------------- -/

/-- Embedding of the `AgentConfig` dataclass of `agents/state.py`,
with the source defaults. -/
structure AgentConfig where
  retrieval_methods : List String := [ "vector" ]
  use_reranking : Bool := true
  use_compression : Bool := false
  use_query_expansion : Bool := false
  use_hypothetical_questions : Bool := false
  top_k : Int := 4
  reranker_top_n : Int := 5
deriving DecidableEq

/-- Values that can appear in a serialized `AgentConfig` dict: the list of
method names, the boolean flags, and the integer knobs. -/
inductive CVal where
  | strList : List String → CVal
  | bool : Bool → CVal
  | int : Int → CVal
deriving DecidableEq

/-- Embedding of `AgentConfig.to_dict`: the seven known keys in source
order, paired with the current field values. -/
def AgentConfig.to_dict (c : AgentConfig) : List (String × CVal) :=
  [ ("retrieval_methods", CVal.strList c.retrieval_methods),
    ("use_reranking", CVal.bool c.use_reranking),
    ("use_compression", CVal.bool c.use_compression),
    ("use_query_expansion", CVal.bool c.use_query_expansion),
    ("use_hypothetical_questions", CVal.bool c.use_hypothetical_questions),
    ("top_k", CVal.int c.top_k),
    ("reranker_top_n", CVal.int c.reranker_top_n) ]

/-- The `known_keys` set of `AgentConfig.from_dict`. -/
def known_keys : List String :=
  [ "retrieval_methods", "use_reranking", "use_compression",
    "use_query_expansion", "use_hypothetical_questions",
    "top_k", "reranker_top_n" ]

/-- Decode a list-of-strings entry: absent key falls back to the dataclass
default, a present entry must carry a list of strings (a wrongly typed
value would build a malformed Python dataclass; we model it as `none`). -/
def get_str_list (d : List (String × CVal)) (k : String) (dflt : List String) :
    Option (List String) :=
  match dictGet d k with
  | none => some dflt
  | some (CVal.strList l) => some l
  | some _ => none

/-- Decode a boolean entry of a serialized config dict (see `get_str_list`). -/
def get_bool (d : List (String × CVal)) (k : String) (dflt : Bool) : Option Bool :=
  match dictGet d k with
  | none => some dflt
  | some (CVal.bool b) => some b
  | some _ => none

/-- Decode an integer entry of a serialized config dict (see `get_str_list`). -/
def get_int (d : List (String × CVal)) (k : String) (dflt : Int) : Option Int :=
  match dictGet d k with
  | none => some dflt
  | some (CVal.int i) => some i
  | some _ => none

/-- Embedding of `AgentConfig.from_dict`: keep only the known keys, then
build the dataclass, with dataclass defaults for missing keys. -/
def AgentConfig.from_dict (data : List (String × CVal)) : Option AgentConfig :=
  let filtered := data.filter (fun kv => known_keys.contains kv.1)
  do
    let rm ← get_str_list filtered "retrieval_methods" [ "vector" ]
    let rr ← get_bool filtered "use_reranking" true
    let uc ← get_bool filtered "use_compression" false
    let uq ← get_bool filtered "use_query_expansion" false
    let uh ← get_bool filtered "use_hypothetical_questions" false
    let tk ← get_int filtered "top_k" 4
    let rn ← get_int filtered "reranker_top_n" 5
    pure { retrieval_methods := rm, use_reranking := rr, use_compression := uc,
           use_query_expansion := uq, use_hypothetical_questions := uh,
           top_k := tk, reranker_top_n := rn }

/- ----------------------------------------------------------------------
Supervisor node and post-supervisor routing (agents/nodes.py,
agents/graph.py).
---------------------------------------------------------------------- -/

/-- Embedding of the `next_action` computation of `supervisor_node`
(agents/nodes.py): start from `state.get("retrieval_method", "vector")`,
reroute to `expand` if expansion is requested and has not run, then
unconditionally override with `hypothetical_questions` when that flag is
set.  The returned string is the `retrieval_method` field of the state
update the node returns. -/
def supervisor_next_action (config : AgentConfig) (retrieval_method : Option String)
    (execution_trace : List String) : String :=
  let next1 := retrieval_method.getD "vector"
  let next2 :=
    if config.use_query_expansion && !(execution_trace.contains "query_expander")
    then "expand" else next1
  if config.use_hypothetical_questions then "hypothetical_questions" else next2

/-- The `valid_routes` set of `_route_from_supervisor` (agents/graph.py). -/
def valid_routes : List String :=
  [ "expand", "vector", "bm25", "hybrid", "self_query", "hypothetical_questions" ]

/-- Embedding of `_route_from_supervisor` (agents/graph.py): read the
method with default `vector`, coerce anything outside the six valid
route names to `vector`. -/
def route_from_supervisor (retrieval_method : Option String) : String :=
  let method := retrieval_method.getD "vector"
  if !(valid_routes.contains method) then "vector" else method

/- ----------------------------------------------------------------------
Metadata filter builders (services/retrievers.py `_build_where` and
agents/nodes.py `_build_chroma_where`).
---------------------------------------------------------------------- -/

/-- Values carried by a ChromaDB where clause. -/
inductive WVal where
  | int : Int → WVal
  | str : String → WVal
  | strList : List String → WVal
deriving DecidableEq

/-- A ChromaDB where clause: `$eq` and `$contains` leaves on a metadata
field, and the `$and` combinator. -/
inductive WhereClause where
  | eq : String → WVal → WhereClause
  | contains : String → WVal → WhereClause
  | and : List WhereClause → WhereClause

/-- The `topics` filter value may be a plain string or a list of strings. -/
inductive TopicsVal where
  | str : String → TopicsVal
  | list : List String → TopicsVal

/-- Python truthiness of a `topics` value: nonempty string or nonempty list. -/
def TopicsVal.truthy : TopicsVal → Bool
  | TopicsVal.str s => !s.isEmpty
  | TopicsVal.list l => !l.isEmpty

/-- The `", ".join(topic_val)` normalization applied by `_build_where`
when the topics value is a list. -/
def TopicsVal.joined : TopicsVal → String
  | TopicsVal.str s => s
  | TopicsVal.list l => String.intercalate ", " l

/-- The raw `topics` value as it is placed verbatim into a clause by
`_build_chroma_where`. -/
def TopicsVal.val : TopicsVal → WVal
  | TopicsVal.str s => WVal.str s
  | TopicsVal.list l => WVal.strList l

/-- The recognized keys of a flat filter dict.  `year = none` covers both
an absent key and an explicit null (the source guards
`"year" in filters and filters["year"] is not None`); for `topics` and
`subtopic` the source additionally requires Python truthiness, kept here
as explicit checks in the builders. -/
structure Filters where
  year : Option Int := none
  topics : Option TopicsVal := none
  subtopic : Option String := none

/-- Embedding of `SelfQueryRetriever._build_where`
(services/retrievers.py): collect one clause per recognized truthy key in
the fixed order year, topics, subtopic; no clause yields no predicate, a
single clause is returned bare, several are wrapped in `$and`.  The
source's early `if not filters: return None` is subsumed by the empty
conditions case. -/
def build_where (f : Filters) : Option WhereClause :=
  let conditions :=
    (match f.year with
     | some y => [ WhereClause.eq "year" (WVal.int y) ]
     | none => []) ++
    (match f.topics with
     | some t => if t.truthy then [ WhereClause.contains "topics" (WVal.str t.joined) ] else []
     | none => []) ++
    (match f.subtopic with
     | some s => if !s.isEmpty then [ WhereClause.eq "subtopic" (WVal.str s) ] else []
     | none => [])
  match conditions with
  | [] => none
  | [c] => some c
  | cs => some (WhereClause.and cs)

/-- Embedding of `_build_chroma_where` (agents/nodes.py): identical shape
to `build_where` but the topics clause uses `$eq` with the raw value. -/
def build_chroma_where (f : Filters) : Option WhereClause :=
  let clauses :=
    (match f.year with
     | some y => [ WhereClause.eq "year" (WVal.int y) ]
     | none => []) ++
    (match f.topics with
     | some t => if t.truthy then [ WhereClause.eq "topics" t.val ] else []
     | none => []) ++
    (match f.subtopic with
     | some s => if !s.isEmpty then [ WhereClause.eq "subtopic" (WVal.str s) ] else []
     | none => [])
  match clauses with
  | [] => none
  | [c] => some c
  | cs => some (WhereClause.and cs)

/-- Whether the `year` guard of the builders fires. -/
def year_cond (f : Filters) : Bool := f.year.isSome

/-- Whether the `topics` guard of the builders fires. -/
def topics_cond (f : Filters) : Bool :=
  match f.topics with
  | some t => t.truthy
  | none => false

/-- Whether the `subtopic` guard of the builders fires. -/
def subtopic_cond (f : Filters) : Bool :=
  match f.subtopic with
  | some s => !s.isEmpty
  | none => false

/-- The year clause both builders emit (meaningful when `year_cond`). -/
def yclause (f : Filters) : WhereClause :=
  WhereClause.eq "year" (WVal.int (f.year.getD 0))

/-- The topics clause `build_where` emits (meaningful when `topics_cond`). -/
def tclause (f : Filters) : WhereClause :=
  WhereClause.contains "topics" (WVal.str ((f.topics.getD (TopicsVal.str "")).joined))

/-- The topics clause `build_chroma_where` emits (meaningful when `topics_cond`). -/
def tclause_chroma (f : Filters) : WhereClause :=
  WhereClause.eq "topics" ((f.topics.getD (TopicsVal.str "")).val)

/-- The subtopic clause both builders emit (meaningful when `subtopic_cond`). -/
def sclause (f : Filters) : WhereClause :=
  WhereClause.eq "subtopic" (WVal.str (f.subtopic.getD ""))

/- ----------------------------------------------------------------------
Query expander node (agents/nodes.py `query_expander_node`).
---------------------------------------------------------------------- -/

/-- The character set of the `lstrip("0123456789.-) ")` that removes
leading enumeration markers from each model line. -/
def lstrip_chars : List Char :=
  ['0', '1', '2', '3', '4', '5', '6', '7', '8', '9', '.', '-', ')', ' ']

/-- Embedding of the list comprehension of `query_expander_node`: split
the stripped model output on newlines, keep lines that are nonempty
after stripping, and strip each kept line plus its leading enumeration
markers. -/
def parse_expansions (content : String) : List String :=
  ((content.trim.splitOn "\n").filter (fun q => !q.trim.isEmpty)).map
    (fun q => q.trim.dropWhile (fun c => lstrip_chars.contains c))

/-- The partial state update returned by `query_expander_node` (the
`agent_messages` and `execution_trace` bookkeeping is omitted). -/
structure ExpanderOutput where
  expanded_queries : List String
  error : Option String
deriving DecidableEq

/-- Embedding of `query_expander_node` (agents/nodes.py).  `response`
models the model call: `Except.ok content` is a successful response,
`Except.error e` a raised exception caught by the node.  On success the
lines are parsed and the original query is prepended when not already
present; on failure the node returns the single original query and sets
the error field. -/
def query_expander_node (query : String) (response : Except String String) :
    ExpanderOutput :=
  match response with
  | Except.ok content =>
      let expanded := parse_expansions content
      let expanded := if query ∈ expanded then expanded else query :: expanded
      { expanded_queries := expanded, error := none }
  | Except.error e =>
      { expanded_queries := [query], error := some ("Query expansion failed: " ++ e) }

/- ----------------------------------------------------------------------
Answer generator node (agents/nodes.py `answer_generator_node`).
---------------------------------------------------------------------- -/

/-- The fixed apology returned when no documents are available. -/
def no_docs_answer : String :=
  "I could not find any relevant documents to answer your question. Please try rephrasing your query."

/-- Embedding of the context concatenation of `answer_generator_node`:
numbered document bodies joined by a separator line. -/
def answer_context (docs : List Doc) : String :=
  String.intercalate "\n\n---\n\n"
    (docs.enum.map (fun p => "[Document " ++ toString (p.1 + 1) ++ "]\n" ++ p.2.page_content))

/-- The partial state update returned by `answer_generator_node`, plus an
`invoked_llm` flag recording whether the completion provider was called
(the source calls `llm.invoke` only on the nonempty-documents path). -/
structure AnswerOutput where
  answer : String
  final_documents : List Doc
  invoked_llm : Bool
  error : Option String
deriving DecidableEq

/-- Embedding of `answer_generator_node` (agents/nodes.py).  The document
set is chosen by the `compressed or reranked or raw` fallthrough; when it
is empty the node returns the fixed apology without calling the model.
`llm` models the completion provider applied to the built context and
the query (the fixed prompt template around them is constant text);
`Except.error` is a raised exception caught by the node. -/
def answer_generator_node (query : String)
    (compressed_documents reranked_documents documents : List Doc)
    (llm : String → String → Except String String) : AnswerOutput :=
  let docs :=
    if compressed_documents ≠ [] then compressed_documents
    else if reranked_documents ≠ [] then reranked_documents
    else documents
  if docs = [] then
    { answer := no_docs_answer, final_documents := [], invoked_llm := false,
      error := none }
  else
    match llm (answer_context docs) query with
    | Except.ok content =>
        { answer := content, final_documents := docs, invoked_llm := true,
          error := none }
    | Except.error e =>
        { answer := "An error occurred while generating the answer: " ++ e,
          final_documents := docs, invoked_llm := true,
          error := some ("Answer generation failed: " ++ e) }

/- ----------------------------------------------------------------------
Compression (agents/nodes.py `compressor_node` and
services/augmentation.py `ContextCompressionService.compress`).
---------------------------------------------------------------------- -/

/-- The partial state update returned by `compressor_node`. -/
structure CompressorOutput where
  compressed_documents : List Doc
  error : Option String
deriving DecidableEq

/-- Embedding of `compressor_node` (agents/nodes.py).  `compressor`
models `LLMChainExtractor.from_llm(_get_llm())`: an `Except.error`
there is the outer try/except path, which returns the input documents
unchanged.  Its payload models `compressor.compress_documents([doc],
query)` per document, returning the (possibly empty) list of compressed
documents or a per-document exception; on a per-document exception the
original document is kept. -/
def compressor_node (docs : List Doc)
    (compressor : Except String (Doc → Except String (List Doc))) : CompressorOutput :=
  if docs = [] then { compressed_documents := [], error := none }
  else
    match compressor with
    | Except.error e =>
        { compressed_documents := docs, error := some ("Compression failed: " ++ e) }
    | Except.ok compress_documents =>
        { compressed_documents :=
            docs.foldl (fun compressed doc =>
              match compress_documents doc with
              | Except.ok result => compressed ++ result
              | Except.error _ => compressed ++ [doc]) [],
          error := none }

/-- A retrieval result dict as handled by the augmentation services:
its raw content and the `compressed_content` key, which is absent
(`none`) until the compression service sets it. -/
structure RDoc where
  content : String
  compressed_content : Option String := none
deriving DecidableEq

/-- Embedding of `ContextCompressionService.compress`
(services/augmentation.py).  `llm` models the `ChatOpenAI` construction
(its failure is the outer except path, which backfills every missing
`compressed_content` with the 500-character truncation); `extract`
models the per-document `llm.invoke`: on success the stripped response
becomes the compressed content, on a per-document exception the raw
content truncated to 500 characters is used.  Documents with empty
content get an empty compressed content without a model call. -/
def ContextCompressionService.compress (results : List RDoc)
    (llm : Except String Unit) (extract : RDoc → Except String String) : List RDoc :=
  if results = [] then results
  else
    match llm with
    | Except.ok _ =>
        results.map (fun doc =>
          if doc.content.isEmpty then { doc with compressed_content := some "" }
          else
            match extract doc with
            | Except.ok text => { doc with compressed_content := some text.trim }
            | Except.error _ =>
                { doc with compressed_content := some (doc.content.take 500) })
    | Except.error _ =>
        results.map (fun doc =>
          match doc.compressed_content with
          | some _ => doc
          | none => { doc with compressed_content := some (doc.content.take 500) })

/- ----------------------------------------------------------------------
Result conversion (services/retrievers.py
`BaseRetriever._chroma_results_to_dicts`).
---------------------------------------------------------------------- -/

/-- A raw ChromaDB result dict.  Every field is optional, mirroring the
`.get` accesses of the source; a `none` distance covers both an absent
and a null `distance` entry. -/
structure RawItem where
  id : Option String := none
  distance : Option ℚ := none
  metadata : Option (List (String × String)) := none
  document : Option String := none

/-- A result dict in the standard format returned by every retriever. -/
structure RetrievedDoc where
  document_id : String
  title : String
  content : String
  score : Option ℚ
  metadata : List (String × String)
deriving DecidableEq

/-- Rounding to four decimal places, the `round(x, 4)` of the source. -/
def round4 (q : ℚ) : ℚ := ((round (q * 10000) : ℤ) : ℚ) / 10000

/-- Embedding of `BaseRetriever._chroma_results_to_dicts`
(services/retrievers.py): score is `1 - distance` rounded to 4 decimals,
or null when the distance is missing; the document id prefers the
`document_id` metadata entry, then the chunk-id part before `_chunk_`,
then the raw ChromaDB id, following Python truthiness at each step. -/
def chroma_results_to_dicts (raw : List RawItem) : List RetrievedDoc :=
  raw.map (fun item =>
    let score :=
      match item.distance with
      | some d => some (round4 (1 - d))
      | none => none
    let metadata := item.metadata.getD []
    let chroma_id := item.id.getD ""
    let meta_doc_id := (dictGet metadata "document_id").getD ""
    let chunk_head := (chroma_id.splitOn "_chunk_").headD ""
    let doc_id :=
      if !meta_doc_id.isEmpty then meta_doc_id
      else if !chunk_head.isEmpty then chunk_head
      else chroma_id
    { document_id := doc_id,
      title := (dictGet metadata "title").getD "",
      content := item.document.getD "",
      score := score,
      metadata := metadata })

/- ----------------------------------------------------------------------
Hybrid search with reciprocal rank fusion (services/retrievers.py
`HybridSearchRetriever.retrieve`).
---------------------------------------------------------------------- -/

/-- The `rrf_scores` dict: document id to fused score. -/
abbrev ScoreMap := List (String × ℚ)

/-- Score of a document id in the fusion dict, 0 when absent: the
`rrf_scores.get(doc_id, 0.0)` of the source. -/
def dictGetD (m : ScoreMap) (k : String) : ℚ := (dictGet m k).getD 0

/-- Python dict assignment on the fusion dict: overwrite the value in
place when the key exists, append the pair otherwise. -/
def dictSet : ScoreMap → String → ℚ → ScoreMap
  | [], k, v => [(k, v)]
  | (k0, v0) :: rest, k, v =>
      if k0 = k then (k, v) :: rest else (k0, v0) :: dictSet rest k v

/-- One `for rank, doc in enumerate(results)` accumulation pass of
`HybridSearchRetriever.retrieve`: each document id at 0-based `rank`
adds `w / (60 + rank + 1)` to its fused score (60 is the source's RRF
constant `k`). -/
def rrf_pass (w : ℚ) : Nat → List String → ScoreMap → ScoreMap
  | _, [], m => m
  | rank, doc_id :: rest, m =>
      rrf_pass w (rank + 1) rest
        (dictSet m doc_id (dictGetD m doc_id + w / (60 + (rank : ℚ) + 1)))

/-- The fused score dict built by `HybridSearchRetriever.retrieve`: the
vector pass with `vector_weight` followed by the BM25 pass with
`bm25_weight`, starting from an empty dict. -/
def rrf_scores (vector_weight bm25_weight : ℚ)
    (vector_results bm25_results : List String) : ScoreMap :=
  rrf_pass bm25_weight 0 bm25_results (rrf_pass vector_weight 0 vector_results [])

/-- Rounding to six decimal places, the `round(x, 6)` applied to the
fused score stored on each returned document. -/
def round6 (q : ℚ) : ℚ := ((round (q * 1000000) : ℤ) : ℚ) / 1000000

/-- The `sorted(rrf_scores, key=rrf_scores.get, reverse=True)` step:
the dict keys in insertion order, stably sorted by fused score
descending. -/
def fused_ordering (m : ScoreMap) : List String :=
  List.mergeSort (m.map Prod.fst) (fun a b => decide (dictGetD m b ≤ dictGetD m a))

/-- The fusion tail of `HybridSearchRetriever.retrieve`: build the fused
score dict from both candidate lists, order ids by fused score
descending, truncate to `top_k`, and return each id with its rounded
fused score (documents are identified by their ids here; the payload
carried through `doc_map` adds nothing to ranking). -/
def hybrid_fuse (vector_weight bm25_weight : ℚ)
    (vector_results bm25_results : List String) (top_k : Nat) : List (String × ℚ) :=
  ((fused_ordering (rrf_scores vector_weight bm25_weight vector_results bm25_results)).take
      top_k).map
    (fun doc_id =>
      (doc_id,
        round6 (dictGetD (rrf_scores vector_weight bm25_weight vector_results bm25_results)
          doc_id)))

/-- Embedding of `HybridSearchRetriever.retrieve`: both legs are fetched
with `fetch_k = top_k * 3` (each leg is an oracle from the requested
candidate count to the returned document ids), then fused. -/
def hybrid_retrieve (vector_weight bm25_weight : ℚ)
    (vector_leg bm25_leg : Nat → List String) (top_k : Nat) : List (String × ℚ) :=
  hybrid_fuse vector_weight bm25_weight (vector_leg (top_k * 3)) (bm25_leg (top_k * 3)) top_k

/-- The per-leg RRF contribution of a document: `w / (60 + rank + 1)` at
its 0-based rank when it appears in the leg, 0 otherwise. -/
def leg_contrib (w : ℚ) (ids : List String) (d : String) : ℚ :=
  if d ∈ ids then w / (60 + (ids.indexOf d : ℚ) + 1) else 0

/- ----------------------------------------------------------------------
Theorems.
---------------------------------------------------------------------- -/

/-- C2: for every config, analyzer-chosen method and execution trace, if
`config.use_hypothetical_questions` is set then the supervisor routes to
`hypothetical_questions`, regardless of the chosen method (including
`bm25`) and regardless of `use_query_expansion`. -/
theorem supervisor_hypothetical_override (config : AgentConfig)
    (retrieval_method : Option String) (execution_trace : List String)
    (h : config.use_hypothetical_questions = true) :
    supervisor_next_action config retrieval_method execution_trace
      = "hypothetical_questions" := by
  simp [supervisor_next_action, h]

/-- Witness for C2: a config with both the hypothetical-questions and the
query-expansion flags set still routes an analyzer-chosen `bm25` to
`hypothetical_questions`. -/
theorem supervisor_hypothetical_override_witness :
    supervisor_next_action
      { use_hypothetical_questions := true, use_query_expansion := true }
      (some "bm25") [] = "hypothetical_questions" :=
  supervisor_hypothetical_override
    { use_hypothetical_questions := true, use_query_expansion := true }
    (some "bm25") [] rfl

/-- C5: any retrieval method outside the six valid route names is routed
to `vector` by the post-supervisor routing function (which is total, so
it never raises). -/
theorem route_unknown_coerced_to_vector (m : String) (h : m ∉ valid_routes) :
    route_from_supervisor (some m) = "vector" := by
  simp only [route_from_supervisor, Option.getD_some]
  rw [show valid_routes.contains m = false by simpa using h]
  simp

/-- Witness for C5: the string `foo` is not a valid route and is coerced
to `vector`. -/
theorem route_unknown_coerced_to_vector_witness :
    route_from_supervisor (some "foo") = "vector" :=
  route_unknown_coerced_to_vector "foo" (by decide)

/-- C6: for every query and every model outcome, the expander output is
nonempty and contains the original query; on a model failure it is
exactly the single original query with the error field set. -/
theorem query_expander_always_contains_query (query : String)
    (response : Except String String) :
    (query_expander_node query response).expanded_queries ≠ []
      ∧ query ∈ (query_expander_node query response).expanded_queries
      ∧ ∀ e, response = Except.error e →
          (query_expander_node query response).expanded_queries = [query]
            ∧ (query_expander_node query response).error
                = some ("Query expansion failed: " ++ e) := by
  match response with
  | Except.error e =>
      refine ⟨by simp [query_expander_node], by simp [query_expander_node], ?_⟩
      intro e0 he
      cases he
      exact ⟨rfl, rfl⟩
  | Except.ok content =>
      refine ⟨?_, ?_, ?_⟩
      · by_cases hq : query ∈ parse_expansions content
        · have hne : parse_expansions content ≠ [] := by
            intro hnil
            rw [hnil] at hq
            exact absurd hq (List.not_mem_nil _)
          simp [query_expander_node, hq, hne]
        · simp [query_expander_node, hq]
      · by_cases hq : query ∈ parse_expansions content <;>
          simp [query_expander_node, hq]
      · intro e0 he
        cases he

/-- Witness for C6: a model output with zero usable lines still yields
the original query, and the failure path yields exactly the original
query with the error set. -/
theorem query_expander_always_contains_query_witness :
    ((query_expander_node "what is solar power" (Except.ok "")).expanded_queries ≠ []
        ∧ "what is solar power"
            ∈ (query_expander_node "what is solar power" (Except.ok "")).expanded_queries)
      ∧ (query_expander_node "what is solar power" (Except.error "boom")).expanded_queries
          = ["what is solar power"] :=
  ⟨⟨(query_expander_always_contains_query "what is solar power" (Except.ok "")).1,
    (query_expander_always_contains_query "what is solar power" (Except.ok "")).2.1⟩,
    ((query_expander_always_contains_query "what is solar power"
        (Except.error "boom")).2.2 "boom" rfl).1⟩

/-- C7: when the fallthrough-selected document set is empty, the answer
generator returns the fixed apology, an empty final document list, and
does not invoke the completion provider. -/
theorem answer_generator_empty_docs (query : String)
    (compressed_documents reranked_documents documents : List Doc)
    (llm : String → String → Except String String)
    (h : (if compressed_documents ≠ [] then compressed_documents
          else if reranked_documents ≠ [] then reranked_documents
          else documents) = []) :
    answer_generator_node query compressed_documents reranked_documents documents llm
      = { answer := no_docs_answer, final_documents := [], invoked_llm := false,
          error := none } := by
  simp only [answer_generator_node, h]
  simp

/-- Witness for C7: with all three document sets empty, the apology is
returned without a model call. -/
theorem answer_generator_empty_docs_witness :
    answer_generator_node "q" [] [] [] (fun _ _ => Except.ok " answer")
      = { answer := no_docs_answer, final_documents := [], invoked_llm := false,
          error := none } :=
  answer_generator_empty_docs "q" [] [] [] (fun _ _ => Except.ok " answer") (by simp)

/-- Helper: a list whose pairs all fail a filter predicate filters to the
empty list. -/
theorem filter_eq_nil_of_forall_false {α : Type} (p : α → Bool) (l : List α)
    (h : ∀ x ∈ l, p x = false) : l.filter p = [] := by
  induction l with
  | nil => rfl
  | cons a rest ih =>
      have ha := h a (List.mem_cons_self a rest)
      rw [List.filter_cons, ha]
      simp only [Bool.false_eq_true, if_false]
      exact ih (fun x hx => h x (List.mem_cons_of_mem a hx))

/-- C9: serializing an `AgentConfig` and deserializing it yields the same
config, and extending the serialized dict with any entries whose keys are
outside the seven known keys still reconstructs the same config. -/
theorem agent_config_roundtrip (c : AgentConfig) (extra : List (String × CVal))
    (hextra : ∀ kv ∈ extra, kv.1 ∉ known_keys) :
    AgentConfig.from_dict c.to_dict = some c
      ∧ AgentConfig.from_dict (c.to_dict ++ extra) = some c := by
  have hfe : extra.filter (fun kv => known_keys.contains kv.1) = [] :=
    filter_eq_nil_of_forall_false _ extra (fun kv hkv => by
      simpa using hextra kv hkv)
  have hfd : c.to_dict.filter (fun kv => known_keys.contains kv.1) = c.to_dict := rfl
  have happ : (c.to_dict ++ extra).filter (fun kv => known_keys.contains kv.1)
      = c.to_dict := by
    rw [List.filter_append, hfe, hfd, List.append_nil]
  constructor
  · rfl
  · simp only [AgentConfig.from_dict, happ]
    rfl

/-- Witness for C9: a concrete non-default config survives the roundtrip,
also with two unknown keys appended. -/
theorem agent_config_roundtrip_witness :
    AgentConfig.from_dict
        (AgentConfig.to_dict
          { retrieval_methods := ["hybrid", "bm25"], use_reranking := false,
            use_compression := true, use_query_expansion := true,
            use_hypothetical_questions := false, top_k := 7, reranker_top_n := 2 })
      = some
          { retrieval_methods := ["hybrid", "bm25"], use_reranking := false,
            use_compression := true, use_query_expansion := true,
            use_hypothetical_questions := false, top_k := 7, reranker_top_n := 2 }
      ∧ AgentConfig.from_dict
          (AgentConfig.to_dict
              { retrieval_methods := ["hybrid", "bm25"], use_reranking := false,
                use_compression := true, use_query_expansion := true,
                use_hypothetical_questions := false, top_k := 7, reranker_top_n := 2 }
            ++ [("unknown_key", CVal.int 3), ("another", CVal.bool true)])
        = some
            { retrieval_methods := ["hybrid", "bm25"], use_reranking := false,
              use_compression := true, use_query_expansion := true,
              use_hypothetical_questions := false, top_k := 7, reranker_top_n := 2 } :=
  agent_config_roundtrip
    { retrieval_methods := ["hybrid", "bm25"], use_reranking := false,
      use_compression := true, use_query_expansion := true,
      use_hypothetical_questions := false, top_k := 7, reranker_top_n := 2 }
    [("unknown_key", CVal.int 3), ("another", CVal.bool true)] (by decide)

/-- C10: result conversion is total over missing distances: every raw
item maps to exactly one result whose score is null when the distance is
absent or null, and `1 - distance` rounded to 4 decimals otherwise. -/
theorem chroma_score_conversion (raw : List RawItem) :
    (chroma_results_to_dicts raw).map RetrievedDoc.score
      = raw.map (fun item =>
          match item.distance with
          | some d => some (round4 (1 - d))
          | none => none) := by
  induction raw with
  | nil => rfl
  | cons item rest ih =>
      simp only [chroma_results_to_dicts, List.map_cons] at ih ⊢
      rw [ih]

/-- C3: shape of the built metadata predicate, for both the retriever
builder (`_build_where`, `$contains` on topics) and the graph-node
builder (`_build_chroma_where`, `$eq` on topics): no recognized truthy
key yields no predicate (this covers an absent or empty filter dict);
exactly one yields that bare clause; two or more yield an `$and` over
the per-key clauses in the fixed order year, topics, subtopic. -/
theorem build_where_shape (f : Filters) :
    (year_cond f = false → topics_cond f = false → subtopic_cond f = false →
        build_where f = none ∧ build_chroma_where f = none)
  ∧ (year_cond f = true → topics_cond f = false → subtopic_cond f = false →
        build_where f = some (yclause f)
          ∧ build_chroma_where f = some (yclause f))
  ∧ (year_cond f = false → topics_cond f = true → subtopic_cond f = false →
        build_where f = some (tclause f)
          ∧ build_chroma_where f = some (tclause_chroma f))
  ∧ (year_cond f = false → topics_cond f = false → subtopic_cond f = true →
        build_where f = some (sclause f)
          ∧ build_chroma_where f = some (sclause f))
  ∧ (year_cond f = true → topics_cond f = true → subtopic_cond f = false →
        build_where f = some (WhereClause.and [yclause f, tclause f])
          ∧ build_chroma_where f = some (WhereClause.and [yclause f, tclause_chroma f]))
  ∧ (year_cond f = true → topics_cond f = false → subtopic_cond f = true →
        build_where f = some (WhereClause.and [yclause f, sclause f])
          ∧ build_chroma_where f = some (WhereClause.and [yclause f, sclause f]))
  ∧ (year_cond f = false → topics_cond f = true → subtopic_cond f = true →
        build_where f = some (WhereClause.and [tclause f, sclause f])
          ∧ build_chroma_where f = some (WhereClause.and [tclause_chroma f, sclause f]))
  ∧ (year_cond f = true → topics_cond f = true → subtopic_cond f = true →
        build_where f = some (WhereClause.and [yclause f, tclause f, sclause f])
          ∧ build_chroma_where f
              = some (WhereClause.and [yclause f, tclause_chroma f, sclause f])) := by
  obtain ⟨oy, ot, os⟩ := f
  cases oy <;> cases ot <;> cases os <;>
    refine ⟨?_, ?_, ?_, ?_, ?_, ?_, ?_, ?_⟩ <;> intro h1 h2 h3 <;>
    simp_all [build_where, build_chroma_where, year_cond, topics_cond,
      subtopic_cond, yclause, tclause, sclause, tclause_chroma]

/-- Witness for C3: a filter dict with year 2024 and topics `solar` (and
no subtopic) yields an `$and` of the two clauses in the fixed order, in
both builders. -/
theorem build_where_shape_witness :
    build_where { year := some 2024, topics := some (TopicsVal.str "solar") }
        = some (WhereClause.and
            [WhereClause.eq "year" (WVal.int 2024),
             WhereClause.contains "topics" (WVal.str "solar")])
      ∧ build_chroma_where { year := some 2024, topics := some (TopicsVal.str "solar") }
          = some (WhereClause.and
              [WhereClause.eq "year" (WVal.int 2024),
               WhereClause.eq "topics" (WVal.str "solar")]) :=
  (build_where_shape
    { year := some 2024, topics := some (TopicsVal.str "solar") }).2.2.2.2.1
    rfl rfl rfl

/-- A 501-character document content, used to exhibit the missing
truncation in the graph compressor node. -/
def long_content : String := String.mk (List.replicate 501 'a')

/-- C8 counterexample: the graph compressor node does not truncate on a
per-document failure.  For a 501-character document whose compression
call raises, `compressor_node` keeps the document unchanged, and that
content differs from its 500-character truncation; so the claim that the
output for a failed document is always the 500-character truncation is
false of `compressor_node`. -/
theorem compressor_node_no_truncation :
    (compressor_node [{ page_content := long_content }]
        (Except.ok (fun _ => Except.error "rate limit"))).compressed_documents
      = [{ page_content := long_content }]
    ∧ long_content ≠ long_content.take 500 := by
  constructor
  · unfold compressor_node
    rw [if_neg (List.cons_ne_nil _ _)]
    rfl
  · intro h
    have hd : List.replicate 501 'a' = (List.replicate 501 'a').take 500 := by
      have hdata := congrArg String.data h
      rw [String.data_take] at hdata
      exact hdata
    have hlen := congrArg List.length hd
    rw [List.length_take, List.length_replicate] at hlen
    omega

/-- Helper: a left fold that appends per-element lists to its
accumulator is the accumulator followed by the flattened per-element
lists. -/
theorem foldl_append_eq_flatMap {α β : Type} (g : α → List β) (l : List α)
    (acc : List β) :
    l.foldl (fun r x => r ++ g x) acc = acc ++ l.flatMap g := by
  induction l generalizing acc with
  | nil => simp
  | cons a rest ih => simp [List.foldl_cons, ih, List.append_assoc]

/-- C8 (amended): order is preserved by both compressors; a per-document
failure in `ContextCompressionService.compress` stores the raw content
truncated to 500 characters as that document's compressed content, while
a per-document failure in the graph `compressor_node` keeps the original
document unchanged (no truncation) in its input position. -/
theorem compressor_failure_fallbacks (results : List RDoc)
    (extract : RDoc → Except String String) (i : Nat) (hi : i < results.length)
    (e : String) (hfail : extract (results.get ⟨i, hi⟩) = Except.error e)
    (docs : List Doc) (compress_documents : Doc → Except String (List Doc)) :
    ((ContextCompressionService.compress results (Except.ok ()) extract).map
          RDoc.content
        = results.map RDoc.content)
      ∧ (ContextCompressionService.compress results (Except.ok ()) extract)[i]?
          = some { content := (results.get ⟨i, hi⟩).content,
                   compressed_content :=
                     some ((results.get ⟨i, hi⟩).content.take 500) }
      ∧ (compressor_node docs (Except.ok compress_documents)).compressed_documents
          = docs.flatMap (fun doc =>
              match compress_documents doc with
              | Except.ok result => result
              | Except.error _ => [doc]) := by
  have hne : results ≠ [] := by
    intro h0
    rw [h0] at hi
    exact absurd hi (by simp)
  have hmap : ContextCompressionService.compress results (Except.ok ()) extract
      = results.map (fun doc =>
          if doc.content.isEmpty then { doc with compressed_content := some "" }
          else
            match extract doc with
            | Except.ok text => { doc with compressed_content := some text.trim }
            | Except.error _ =>
                { doc with compressed_content := some (doc.content.take 500) }) := by
    simp [ContextCompressionService.compress, hne]
  refine ⟨?_, ?_, ?_⟩
  · rw [hmap, List.map_map]
    apply List.map_congr_left
    intro doc _
    by_cases hc : doc.content.isEmpty <;> cases hx : extract doc <;>
      simp [hc, hx]
  · rw [hmap, List.getElem?_map, List.getElem?_eq_getElem hi]
    simp only [List.get_eq_getElem] at hfail ⊢
    simp only [Option.map_some']
    by_cases hc : results[i].content.isEmpty
    · have hstr : results[i].content = "" :=
        (String.isEmpty_iff _).mp hc
      have h500 : ("" : String).take 500 = "" := by
        rw [String.take_eq]
        rfl
      rw [if_pos hc]
      simp [hstr, h500]
    · rw [if_neg hc, hfail]
  · have hbody : (fun (compressed : List Doc) (doc : Doc) =>
        match compress_documents doc with
        | Except.ok result => compressed ++ result
        | Except.error _ => compressed ++ [doc])
        = fun (r : List Doc) (x : Doc) =>
            r ++ (match compress_documents x with
                  | Except.ok result => result
                  | Except.error _ => [x]) := by
      funext r x
      cases compress_documents x <;> rfl
    by_cases hd : docs = []
    · simp [compressor_node, hd]
    · rw [compressor_node, if_neg hd]
      rw [hbody, foldl_append_eq_flatMap]
      simp

/-- Witness for C8 (amended): a two-document batch where the second
extraction fails keeps both contents in order, truncates the failed one
to 500 characters in the service, and the node keeps the failed document
unchanged. -/
theorem compressor_failure_fallbacks_witness :
    ((ContextCompressionService.compress
          [{ content := "alpha" }, { content := "beta" }] (Except.ok ())
          (fun d => if d.content = "beta" then Except.error "boom"
                    else Except.ok " alpha kept ")).map RDoc.content
        = ["alpha", "beta"])
      ∧ (ContextCompressionService.compress
            [{ content := "alpha" }, { content := "beta" }] (Except.ok ())
            (fun d => if d.content = "beta" then Except.error "boom"
                      else Except.ok " alpha kept "))[1]?
          = some { content := "beta", compressed_content := some ("beta".take 500) }
      ∧ (compressor_node [{ page_content := "gamma" }]
            (Except.ok (fun _ => Except.error "boom"))).compressed_documents
          = [{ page_content := "gamma" }] := by
  have h := compressor_failure_fallbacks
    [{ content := "alpha" }, { content := "beta" }]
    (fun d => if d.content = "beta" then Except.error "boom"
              else Except.ok " alpha kept ")
    1 (by decide) "boom" rfl
    [{ page_content := "gamma" }] (fun _ => Except.error "boom")
  exact ⟨h.1, h.2.1, h.2.2⟩

/-- Helper: looking up after a dict assignment sees the new value at the
assigned key and is unchanged elsewhere. -/
theorem dictGet_dictSet (m : ScoreMap) (k d : String) (v : ℚ) :
    dictGet (dictSet m k v) d = if k = d then some v else dictGet m d := by
  induction m with
  | nil =>
      simp only [dictSet, dictGet]
  | cons p rest ih =>
      obtain ⟨k0, v0⟩ := p
      by_cases h0 : k0 = k
      · subst h0
        simp only [dictSet, if_pos rfl, dictGet]
        by_cases h1 : k0 = d <;> simp [h1]
      · simp only [dictSet, if_neg h0, dictGet]
        by_cases h1 : k0 = d
        · subst h1
          have hk : ¬(k = k0) := fun he => h0 he.symm
          simp [hk]
        · simp only [if_neg h1, ih]

/-- Helper: effect of one enumeration pass on the fused-score dict.  For
a duplicate-free candidate list, a listed document ends with its prior
score plus `w / (60 + (rank0 + position) + 1)`, and unlisted documents
are untouched. -/
theorem dictGet_rrf_pass (w : ℚ) (ids : List String) (d : String) :
    ∀ (rank0 : Nat) (m : ScoreMap), ids.Nodup →
      dictGet (rrf_pass w rank0 ids m) d =
        if d ∈ ids then
          some (dictGetD m d + w / (60 + ((rank0 + ids.indexOf d : Nat) : ℚ) + 1))
        else dictGet m d := by
  induction ids with
  | nil =>
      intro rank0 m _
      simp [rrf_pass]
  | cons a rest ih =>
      intro rank0 m hnd
      obtain ⟨ha, hrest⟩ := List.nodup_cons.mp hnd
      show dictGet (rrf_pass w (rank0 + 1) rest
          (dictSet m a (dictGetD m a + w / (60 + (rank0 : ℚ) + 1)))) d = _
      rw [ih (rank0 + 1) _ hrest]
      by_cases hd : d = a
      · subst hd
        have hnr : d ∉ rest := ha
        rw [if_neg hnr, dictGet_dictSet, if_pos rfl]
        rw [if_pos (List.mem_cons_self d rest)]
        rw [List.indexOf_cons_self]
        norm_num
      · have hne : ¬(a = d) := fun he => hd he.symm
        have hidx : (a :: rest).indexOf d = rest.indexOf d + 1 :=
          List.indexOf_cons_ne rest hne
        have hget : dictGetD (dictSet m a (dictGetD m a + w / (60 + (rank0 : ℚ) + 1))) d
            = dictGetD m d := by
          unfold dictGetD
          rw [dictGet_dictSet, if_neg hne]
        by_cases hdr : d ∈ rest
        · rw [if_pos hdr, if_pos (List.mem_cons_of_mem a hdr), hget, hidx]
          have harith : (rank0 + 1) + rest.indexOf d = rank0 + (rest.indexOf d + 1) := by
            omega
          rw [harith]
        · have hnc : d ∉ a :: rest := by
            simp [hd, hdr]
          rw [if_neg hdr, if_neg hnc, dictGet_dictSet, if_neg hne]

/-- C1: for duplicate-free candidate lists from the two legs, the fused
RRF score of a document is exactly the sum, over the legs in which it
appears, of that leg's weight divided by `60 + rank + 1` at its 0-based
rank, and a document appearing in neither leg gets no score. -/
theorem hybrid_rrf_fused_score (vector_weight bm25_weight : ℚ)
    (vector_results bm25_results : List String)
    (hv : vector_results.Nodup) (hb : bm25_results.Nodup) (d : String) :
    dictGet (rrf_scores vector_weight bm25_weight vector_results bm25_results) d
      = if d ∈ vector_results ∨ d ∈ bm25_results then
          some (leg_contrib vector_weight vector_results d
            + leg_contrib bm25_weight bm25_results d)
        else none := by
  unfold rrf_scores
  rw [dictGet_rrf_pass bm25_weight bm25_results d 0 _ hb]
  by_cases hbm : d ∈ bm25_results
  · rw [if_pos hbm, if_pos (Or.inr hbm)]
    unfold dictGetD
    rw [dictGet_rrf_pass vector_weight vector_results d 0 [] hv]
    by_cases hvm : d ∈ vector_results
    · rw [if_pos hvm]
      unfold leg_contrib
      rw [if_pos hvm, if_pos hbm]
      simp only [Option.getD_some, dictGet, dictGetD, Option.getD_none]
      norm_num
    · rw [if_neg hvm]
      unfold leg_contrib
      rw [if_neg hvm, if_pos hbm]
      simp only [dictGet, Option.getD_none]
      norm_num
  · rw [if_neg hbm]
    rw [dictGet_rrf_pass vector_weight vector_results d 0 [] hv]
    by_cases hvm : d ∈ vector_results
    · rw [if_pos hvm, if_pos (Or.inl hvm)]
      unfold leg_contrib dictGetD
      rw [if_pos hvm, if_neg hbm]
      simp only [dictGet, Option.getD_none]
      norm_num
    · rw [if_neg hvm]
      have : ¬(d ∈ vector_results ∨ d ∈ bm25_results) := by
        simp [hvm, hbm]
      rw [if_neg this]
      rfl

/-- Witness for C1: two legs that both return the same single document at
rank 0 with the default weights 0.5/0.5 fuse to `0.5/61 + 0.5/61 = 1/61`. -/
theorem hybrid_rrf_fused_score_witness :
    dictGet (rrf_scores (1/2) (1/2) ["doc0"] ["doc0"]) "doc0" = some (1/61) := by
  have h := hybrid_rrf_fused_score (1/2) (1/2) ["doc0"] ["doc0"]
    (by decide) (by decide) "doc0"
  rw [h]
  norm_num [leg_contrib]

/-- Helper: rounding to an integer is monotone. -/
theorem round_rat_mono {a b : ℚ} (h : a ≤ b) : round a ≤ round b := by
  rw [round_eq, round_eq]
  exact Int.floor_mono (by linarith)

/-- Helper: the 6-decimal rounding applied to stored fused scores is
monotone, so ordering by fused score is preserved by it. -/
theorem round6_mono {a b : ℚ} (h : a ≤ b) : round6 a ≤ round6 b := by
  unfold round6
  have h1 : a * 1000000 ≤ b * 1000000 := by linarith
  have h2 : (round (a * 1000000) : ℚ) ≤ (round (b * 1000000) : ℚ) := by
    exact_mod_cast round_rat_mono h1
  have h3 : (0 : ℚ) < 1000000 := by norm_num
  exact (div_le_div_iff_of_pos_right h3).mpr h2

/-- Helper: the id ordering produced for the fusion step is sorted by
fused score descending. -/
theorem fused_ordering_sorted (m : ScoreMap) :
    List.Pairwise (fun a b => dictGetD m b ≤ dictGetD m a) (fused_ordering m) := by
  have htrans : ∀ a b c : String,
      (fun a b => decide (dictGetD m b ≤ dictGetD m a)) a b = true →
      (fun a b => decide (dictGetD m b ≤ dictGetD m a)) b c = true →
      (fun a b => decide (dictGetD m b ≤ dictGetD m a)) a c = true := by
    intro a b c hab hbc
    simp only [decide_eq_true_iff] at hab hbc ⊢
    exact le_trans hbc hab
  have htotal : ∀ a b : String,
      ((fun a b => decide (dictGetD m b ≤ dictGetD m a)) a b
        || (fun a b => decide (dictGetD m b ≤ dictGetD m a)) b a) = true := by
    intro a b
    simp only [Bool.or_eq_true, decide_eq_true_iff]
    exact le_total (dictGetD m b) (dictGetD m a)
  have hp := List.sorted_mergeSort htrans htotal (m.map Prod.fst)
  exact hp.imp (fun hab => by simpa using hab)

/-- C4: the hybrid retriever fetches `3 × top_k` candidates from each
leg, yet returns at most `top_k` fused results, and the returned list is
ordered by fused RRF score descending. -/
theorem hybrid_retrieve_topk_sorted (vector_weight bm25_weight : ℚ)
    (vector_leg bm25_leg : Nat → List String) (top_k : Nat) :
    (hybrid_retrieve vector_weight bm25_weight vector_leg bm25_leg top_k).length ≤ top_k
      ∧ List.Sorted (fun p q : String × ℚ => q.2 ≤ p.2)
          (hybrid_retrieve vector_weight bm25_weight vector_leg bm25_leg top_k) := by
  constructor
  · unfold hybrid_retrieve hybrid_fuse
    rw [List.length_map, List.length_take]
    exact min_le_left _ _
  · unfold hybrid_retrieve hybrid_fuse List.Sorted
    exact List.Pairwise.map _ (fun a b hab => round6_mono hab)
      ((fused_ordering_sorted _).sublist (List.take_sublist _ _))
